import Mathlib

/-!
Verification of the xctrace-skill trace capture and analysis pipeline.

Each Python script is shallowly embedded as a Lean function over an explicit
environment that models the external world the script interacts with: the
subprocess runner (`xcrun xctrace ...`, `pgrep`), the filesystem
(`os.path.exists`, `os.path.getsize`), the wall clock (`datetime.now`
pre-formatted with `strftime("%Y%m%d_%H%M%S")`), and the Python standard
library XML parser (`xml.etree.ElementTree.fromstring`).  Everything below
the environment boundary is translated line by line from the scripts in
`scripts/`.

Python string and number primitives used by the scripts are modelled first:
`str.lower`, `str.replace`, `str.strip`, `str.split`, the substring operator
`in`, truthiness of optional strings/lists, and `round(x, 2)` (banker's
rounding, carried out in exact rational arithmetic).
-/

/-! ## Python primitive models -/

def spaceChar : Char := Char.ofNat 32

def underscoreChar : Char := Char.ofNat 95

def newlineChar : Char := Char.ofNat 10

/-- Python `s.lower()` (ASCII case folding, as used on template and schema names). -/
def pyLower (s : String) : String := String.mk (s.toList.map Char.toLower)

/-- Python `s.replace(c, r)` for a single-character pattern. -/
def pyReplaceChar (c r : Char) (s : String) : String :=
  String.mk (s.toList.map (fun a => if a == c then r else a))

/-- Python `s.strip()`: drop leading and trailing whitespace. -/
def pyStrip (s : String) : String :=
  String.mk (((s.toList.dropWhile Char.isWhitespace).reverse.dropWhile
    Char.isWhitespace).reverse)

def pySplitOnCharAux (c : Char) : List Char → List (List Char)
  | [] => [[]]
  | a :: rest =>
    let r := pySplitOnCharAux c rest
    if a == c then [] :: r
    else
      match r with
      | g :: gs => (a :: g) :: gs
      | [] => [[a]]

/-- Python `s.split(c)` for a one-character separator (keeps empty pieces). -/
def pySplitOnChar (c : Char) (s : String) : List String :=
  (pySplitOnCharAux c s.toList).map String.mk

/-- Python `s.split(None, 1)`: skip leading whitespace, take the first
whitespace-free token, then the remainder after the separating whitespace run
(dropped entirely when it is pure whitespace). -/
def pySplitNoneMax1 (s : String) : List String :=
  let cs := s.toList.dropWhile Char.isWhitespace
  let tok := cs.takeWhile (fun c => !c.isWhitespace)
  let rest := (cs.dropWhile (fun c => !c.isWhitespace)).dropWhile Char.isWhitespace
  if tok.isEmpty then []
  else if rest.isEmpty then [String.mk tok]
  else [String.mk tok, String.mk rest]

def charsStartWith : List Char → List Char → Bool
  | [], _ => true
  | _ :: _, [] => false
  | a :: as, b :: bs => a == b && charsStartWith as bs

def charsContain (pat : List Char) : List Char → Bool
  | [] => charsStartWith pat []
  | h :: hs => charsStartWith pat (h :: hs) || charsContain pat hs

/-- Python substring test `pat in hay`. -/
def strContains (hay pat : String) : Bool := charsContain pat.toList hay.toList

/-- Python truthiness of an optional string (`if s:`): falsy when absent or empty. -/
def pyTruthyStr : Option String → Bool
  | none => false
  | some s => !(s == "")

/-- Python truthiness of an optional list (`if l:`): falsy when absent or empty. -/
def pyTruthyList : Option (List String) → Bool
  | none => false
  | some l => !l.isEmpty

/-- Round `n / d` (with `d > 0`) to the nearest integer, ties to even —
the rounding used by Python `round`. -/
def roundHalfEvenFrac (n d : Nat) : Nat :=
  let f := n / d
  let rem := n - f * d
  if 2 * rem < d then f
  else if d < 2 * rem then f + 1
  else if f % 2 = 0 then f else f + 1

/-- Python `round(n / d, 2)` for a nonnegative integer `n` and positive `d`,
in exact rational arithmetic. -/
def pyRound2Div (n d : Nat) : ℚ :=
  Rat.divInt (roundHalfEvenFrac (n * 100) d) 100

/-- `round(bytes / (1024 * 1024), 2)`: the `size_mb` value computed by the
scripts from `os.path.getsize`. -/
def size_mb_of (bytes : Nat) : ℚ := pyRound2Div bytes (1024 * 1024)

/-! ## Subprocess and exception model -/

/-- A bound `subprocess.CompletedProcess` (run with `capture_output=True, text=True`). -/
structure CompletedProc where
  returncode : Int
  stdout : String
  stderr : String
deriving DecidableEq

/-- Outcome of one `subprocess.run` call: either it returns a
`CompletedProcess`, or a `KeyboardInterrupt` escapes it before the caller
can bind the result. -/
inductive SubprocessOutcome where
  | completed (result : CompletedProc)
  | interrupted
deriving DecidableEq

/-- The Python exceptions the embedded scripts can raise. -/
inductive PyExc where
  | runtimeError (msg : String)
  | fileNotFoundError (msg : String)
  | unboundLocalError (varName : String)
deriving DecidableEq

deriving instance DecidableEq for Except

/-! ## XML element model (`xml.etree.ElementTree`) -/

inductive XmlElem where
  | mk (tag : String) (attrib : List (String × String)) (children : List XmlElem)

def XmlElem.tag : XmlElem → String
  | .mk t _ _ => t

def XmlElem.attrib : XmlElem → List (String × String)
  | .mk _ a _ => a

def XmlElem.children : XmlElem → List XmlElem
  | .mk _ _ cs => cs

mutual

/-- All proper descendants of an element, in document order. -/
def XmlElem.descendants : XmlElem → List XmlElem
  | .mk _ _ cs => XmlElem.descList cs

def XmlElem.descList : List XmlElem → List XmlElem
  | [] => []
  | e :: es => e :: (XmlElem.descendants e ++ XmlElem.descList es)

end

/-- `Element.get(key)`: attribute lookup, `None` when absent. -/
def XmlElem.get (e : XmlElem) (k : String) : Option String :=
  (e.attrib.find? (fun p => p.1 == k)).map (fun p => p.2)

/-- `Element.findall(".//t")`: all descendant elements with tag `t`, in
document order. -/
def XmlElem.findallDesc (e : XmlElem) (t : String) : List XmlElem :=
  e.descendants.filter (fun c => c.tag == t)

/-! ## `scripts/trace_record.py` -/

/-- External world of `trace_record.py`: the pre-formatted
`datetime.now().strftime("%Y%m%d_%H%M%S")` reading, the `subprocess.run`
oracle, and the filesystem state observed after the invocation. -/
structure RecordEnv where
  timestamp : String
  run : List String → SubprocessOutcome
  pathExists : String → Bool
  getsize : String → Nat

/-- The dict returned by `record_trace`: either the success shape
`{"success": True, "output": ..., "size_mb": ..., "template": ...}` or the
failure shape `{"success": False, "error": ..., "template": ...}`. -/
inductive RecordResult where
  | saved (output : String) (size_mb : ℚ) (template : String)
  | failed (error : String) (template : String)
deriving DecidableEq

/-- Target-selection branch of `record_trace` (trace_record.py lines 44-55):
`--attach` when the attach argument is truthy, else `--launch --` plus the
launch command when truthy, else `--all-processes` (explicitly also when no
target was supplied at all). -/
def target_args (attach : Option String) (launch : Option (List String))
    (all_processes : Bool) : List String :=
  if pyTruthyStr attach then ["--attach", attach.getD ""]
  else if pyTruthyList launch then ["--launch", "--"] ++ launch.getD []
  else if all_processes then ["--all-processes"]
  else ["--all-processes"]

/-- `record_trace` from trace_record.py.  Console narration (`print`) is not
modelled.  The `try/except KeyboardInterrupt: pass` around `subprocess.run`
leaves the local `result` unbound when the interrupt fires inside the call;
a bound `CompletedProcess` is always truthy, so the
`result.stderr if result else "Recording interrupted"` expression reads
`result.stderr` when a result exists and raises `UnboundLocalError` when it
does not. -/
def record_trace (env : RecordEnv) (template : String) (output : Option String)
    (attach : Option String) (launch : Option (List String)) (all_processes : Bool)
    (time_limit : Option String) (device : Option String) (quiet : Bool) :
    Except PyExc RecordResult :=
  let cmd := ["xcrun", "xctrace", "record"] ++ ["--template", template]
  let out := if pyTruthyStr output then output.getD ""
    else pyReplaceChar spaceChar underscoreChar (pyLower template) ++ "_" ++
      env.timestamp ++ ".trace"
  let cmd := cmd ++ ["--output", out]
  let cmd := if pyTruthyStr device then cmd ++ ["--device", device.getD ""] else cmd
  let cmd := if pyTruthyStr time_limit then cmd ++ ["--time-limit", time_limit.getD ""] else cmd
  let cmd := cmd ++ target_args attach launch all_processes
  let cmd := cmd ++ ["--no-prompt"]
  let cmd := if quiet then cmd ++ ["--quiet"] else cmd
  let result : Option CompletedProc :=
    match env.run cmd with
    | .completed r => some r
    | .interrupted => none
  if env.pathExists out then
    .ok (.saved out (size_mb_of (env.getsize out)) template)
  else
    match result with
    | some r => .ok (.failed r.stderr template)
    | none => .error (.unboundLocalError "result")

/-! ## `scripts/trace_export.py` and `scripts/trace_analyze.py` environment -/

/-- External world of the export, analyze and attach scripts: the
`subprocess.run` oracle (no interrupt handling exists in these scripts), the
stdlib XML parser `ET.fromstring` (returning a root element or the message of
an `ET.ParseError`), and the filesystem. -/
structure SysEnv where
  run : List String → CompletedProc
  parseXml : String → Except String XmlElem
  pathExists : String → Bool
  getsize : String → Nat

/-! ## `scripts/trace_export.py` -/

structure TocTable where
  schema : Option String
  target : Option String
deriving DecidableEq

structure TocRun where
  number : Option String
  tables : List TocTable
deriving DecidableEq

structure Toc where
  runs : List TocRun
deriving DecidableEq

/-- `parse_toc_xml` from trace_export.py: every `.//run` descendant of the
root becomes a run entry carrying its `number` attribute and, for every
`.//table` descendant, the `schema` and `target-pid` attributes. -/
def parse_toc_xml (root : XmlElem) : Toc :=
  { runs := (root.findallDesc "run").map (fun runE =>
      { number := runE.get "number"
        tables := (runE.findallDesc "table").map (fun tableE =>
          { schema := tableE.get "schema"
            target := tableE.get "target-pid" }) }) }

/-- The dict returned by `export_toc`: `{"success": True, "toc": ...,
"raw_xml": ...}` when the XML parses, `{"success": True, "raw": ...,
"parse_error": ...}` when it does not. -/
inductive ExportTocResult where
  | parsed (toc : Toc) (raw_xml : String)
  | unparsed (raw : String) (parse_error : String)
deriving DecidableEq

/-- `export_toc` from trace_export.py. -/
def export_toc (env : SysEnv) (input_path : String) : Except PyExc ExportTocResult :=
  let result := env.run ["xcrun", "xctrace", "export", "--input", input_path, "--toc"]
  if result.returncode ≠ 0 then
    .error (.runtimeError ("xctrace export failed: " ++ result.stderr))
  else
    match env.parseXml result.stdout with
    | .ok root => .ok (.parsed (parse_toc_xml root) result.stdout)
    | .error e => .ok (.unparsed result.stdout e)

/-- The dict returned by `export_xpath`: `{"success": True, "output": ...,
"data": ...}`. -/
structure XpathResult where
  output : String
  data : Option String
deriving DecidableEq

/-- `export_xpath` from trace_export.py. -/
def export_xpath (env : SysEnv) (input_path : String) (xpath : String)
    (output_path : Option String) : Except PyExc XpathResult :=
  let cmd := ["xcrun", "xctrace", "export", "--input", input_path, "--xpath", xpath]
  let cmd := if pyTruthyStr output_path then cmd ++ ["--output", output_path.getD ""] else cmd
  let result := env.run cmd
  if result.returncode ≠ 0 then
    .error (.runtimeError ("xctrace export failed: " ++ result.stderr))
  else
    .ok { output := if pyTruthyStr output_path then output_path.getD "" else "stdout"
          data := if pyTruthyStr output_path then none else some result.stdout }

/-! ## `scripts/trace_analyze.py` -/

structure TraceRun where
  number : Option String
  tables : List String
deriving DecidableEq

/-- The info dict built by `get_trace_info`. -/
structure TraceInfo where
  path : String
  size_mb : ℚ
  runs : List TraceRun
  schemas : List String
deriving DecidableEq

/-- `get_trace_info` from trace_analyze.py.  Raises `FileNotFoundError` when
the trace file is absent; a nonzero export exit or an XML parse failure is
absorbed, leaving `runs` and `schemas` empty.  Each table's truthy `schema`
attribute is appended to its run's table list and, when not already present,
to the deduplicated first-seen-order `schemas` list. -/
def get_trace_info (env : SysEnv) (input_path : String) : Except PyExc TraceInfo :=
  if !env.pathExists input_path then
    .error (.fileNotFoundError ("Trace not found: " ++ input_path))
  else
    let size_mb := size_mb_of (env.getsize input_path)
    let result := env.run ["xcrun", "xctrace", "export", "--input", input_path, "--toc"]
    if result.returncode = 0 then
      match env.parseXml result.stdout with
      | .ok root =>
        let st := (root.findallDesc "run").foldl
          (fun (acc : List TraceRun × List String) runE =>
            let inner := (runE.findallDesc "table").foldl
              (fun (acc2 : List String × List String) tableE =>
                match tableE.get "schema" with
                | some schema =>
                  if schema ≠ "" then
                    (acc2.1 ++ [schema],
                      if acc2.2.contains schema then acc2.2 else acc2.2 ++ [schema])
                  else acc2
                | none => acc2)
              ([], acc.2)
            (acc.1 ++ [{ number := runE.get "number", tables := inner.1 }], inner.2))
          ([], [])
        .ok { path := input_path, size_mb := size_mb, runs := st.1, schemas := st.2 }
      | .error _ => .ok { path := input_path, size_mb := size_mb, runs := [], schemas := [] }
    else
      .ok { path := input_path, size_mb := size_mb, runs := [], schemas := [] }

/-- The ordered `schema_insights` catalog of trace_analyze.py (a Python dict
literal, iterated in insertion order). -/
def schema_insights : List (String × String) :=
  [("time-profile", "CPU profiling data available - look for hot functions"),
   ("allocations", "Memory allocation data - check for excessive allocations"),
   ("leaks", "Memory leak detection - review any leaked objects"),
   ("hangs", "Hang/hitch data - identifies UI responsiveness issues"),
   ("signpost", "Signpost intervals - custom performance markers"),
   ("os-signpost", "OS-level signposts - system performance data"),
   ("kdebug", "Kernel debug data - low-level system tracing"),
   ("metal-gpu", "Metal GPU data - graphics performance"),
   ("core-animation", "Core Animation commits - UI rendering")]

/-- The inner catalog loop of `analyze_trace`: the insight of the first
pattern that is a substring of the lowercased schema name, if any
(`for key, insight in schema_insights.items(): if key in schema_lower: ...
break`). -/
def insightFor (schema : String) : Option String :=
  (schema_insights.find? (fun kv => strContains (pyLower schema) kv.1)).map (fun kv => kv.2)

/-- The outer insight loop of `analyze_trace`: one appended insight per
schema that matches some catalog pattern, in schema order, without any
deduplication. -/
def insightsOf (schemas : List String) : List String :=
  schemas.foldl (fun acc schema =>
    match insightFor schema with
    | some insight => acc ++ [insight]
    | none => acc) []

/-- The fallback insight appended when no schema matched any pattern. -/
def fallbackInsight (n : Nat) : String :=
  "Trace contains " ++ toString n ++ " data tables. " ++
    "Open in Instruments.app for detailed analysis."

/-- The analysis dict built by `analyze_trace` (the `all_schemas` and
`runs_detail` keys exist only in verbose mode). -/
structure AnalysisReport where
  file : String
  size_mb : ℚ
  runs : Nat
  available_data : List String
  insights : List String
  next_steps : List String
  all_schemas : Option (List String)
  runs_detail : Option (List TraceRun)
deriving DecidableEq

/-- `analyze_trace` from trace_analyze.py. -/
def analyze_trace (env : SysEnv) (input_path : String) (verbose : Bool) :
    Except PyExc AnalysisReport :=
  (get_trace_info env input_path).map (fun info =>
    let base := insightsOf info.schemas
    let insights := if base.isEmpty then [fallbackInsight info.schemas.length] else base
    { file := info.path
      size_mb := info.size_mb
      runs := info.runs.length
      available_data := info.schemas
      insights := insights
      next_steps :=
        ["Open in Instruments: open \x27" ++ input_path ++ "\x27",
         "Export specific data: trace_export.py --xpath \x27<query>\x27"]
      all_schemas := if verbose then some info.schemas else none
      runs_detail := if verbose then some info.runs else none })

/-! ## `scripts/trace_attach.py` -/

/-- `find_process` from trace_attach.py.  The result dict is modelled as an
ordered key/value list so that exactly the keys the code writes — `"pid"` and
`"name"`, taken from the first line of `pgrep -l` output — are visible. -/
def find_process (env : SysEnv) (name : String) : Option (List (String × String)) :=
  let result := env.run ["pgrep", "-l", name]
  if result.returncode ≠ 0 then none
  else
    let lines := pySplitOnChar newlineChar (pyStrip result.stdout)
    match lines with
    | [] => none
    | first :: _ =>
      if first = "" then none
      else
        match pySplitNoneMax1 first with
        | p :: n :: _ => some [("pid", p), ("name", n)]
        | _ => none

/-! ## Claim environments and theorems -/

/-- Interrupted invocation, output file present afterward (1 MiB). -/
def envC1a : RecordEnv :=
  { timestamp := "20250101_000000"
    run := fun _ => .interrupted
    pathExists := fun p => p == "out.trace"
    getsize := fun _ => 1048576 }

/-- Interrupted invocation, no output file afterward. -/
def envC1b : RecordEnv :=
  { timestamp := "20250101_000000"
    run := fun _ => .interrupted
    pathExists := fun _ => false
    getsize := fun _ => 0 }

/-- Completed invocation with nonzero exit code, output file present (1 MiB). -/
def envC1c : RecordEnv :=
  { timestamp := "20250101_000000"
    run := fun _ => .completed { returncode := 1, stdout := "", stderr := "exited 1" }
    pathExists := fun p => p == "out.trace"
    getsize := fun _ => 1048576 }

/-- C1: when the output path exists the result is Saved even on interruption
or a nonzero exit code, but in the one remaining case of the claimed
if-and-only-if classification — interruption before a subprocess result
exists with no file on disk — `record_trace` raises `UnboundLocalError`
instead of returning the claimed Failed result. -/
theorem record_classification_at_failing_input :
    record_trace envC1a "Time Profiler" (some "out.trace") none none false none none false
      = .ok (.saved "out.trace" 1 "Time Profiler")
    ∧ record_trace envC1c "Time Profiler" (some "out.trace") none none false none none false
      = .ok (.saved "out.trace" 1 "Time Profiler")
    ∧ record_trace envC1b "Time Profiler" (some "out.trace") none none false none none false
      = .error (.unboundLocalError "result") := by
  refine ⟨by decide, by decide, by decide⟩

/-- Interrupted invocation before any subprocess result, no file afterward. -/
def envC2 : RecordEnv :=
  { timestamp := "20250102_000000"
    run := fun _ => .interrupted
    pathExists := fun _ => false
    getsize := fun _ => 0 }

/-- C2: interrupted before a subprocess result exists and with no output
file, `record_trace` does not return the generic "Recording interrupted"
Failed result the spec describes: evaluating the unbound local `result`
raises `UnboundLocalError` (the `"Recording interrupted"` string literal in
the source is unreachable, since a bound `CompletedProcess` is always
truthy). -/
theorem record_interrupted_before_result_raises :
    record_trace envC2 "Allocations" none none none true none none false
      = .error (.unboundLocalError "result") := by decide

/-- The C3 end-to-end scenario: all-processes recording, template
"Time Profiler", time limit "5s", no explicit output path; the external tool
writes a 2 MiB file at the synthesized path. -/
def envC3 : RecordEnv :=
  { timestamp := "20250101_120000"
    run := fun _ => .completed { returncode := 0, stdout := "", stderr := "" }
    pathExists := fun p => p == "time_profiler_20250101_120000.trace"
    getsize := fun _ => 2 * 1024 * 1024 }

/-- C3 counterexample: in the scenario the Saved result's size field is
`size_mb = 2` (mebibytes), not `2 * 1024 * 1024`: the claim that the size
field carries bytes fails. -/
theorem record_scenario_size_field_ne_bytes :
    record_trace envC3 "Time Profiler" none none none true (some "5s") none false
      = .ok (.saved "time_profiler_20250101_120000.trace" 2 "Time Profiler")
    ∧ (2 : ℚ) ≠ 2 * 1024 * 1024 := by
  refine ⟨by decide, by norm_num⟩

/-- C3 amended: for every record invocation whose effective output path —
the caller-supplied path when truthy, otherwise the synthesized
`slug_timestamp.trace` — exists afterward, the Saved result carries that
path and the file's size in mebibytes rounded to two decimals
(`size_mb = round(getsize(out) / (1024 * 1024), 2)`, i.e. `size_mb_of`);
in the 2 MiB scenario that field is 2, not `2 * 1024 * 1024`. -/
theorem record_saved_size_in_megabytes (env : RecordEnv) (template : String)
    (output attach : Option String) (launch : Option (List String))
    (all_processes : Bool) (time_limit device : Option String) (quiet : Bool)
    (out : String)
    (hout : out = (if pyTruthyStr output then output.getD ""
        else pyReplaceChar spaceChar underscoreChar (pyLower template) ++ "_"
          ++ env.timestamp ++ ".trace"))
    (hex : env.pathExists out = true) :
    record_trace env template output attach launch all_processes time_limit device quiet
      = .ok (.saved out (size_mb_of (env.getsize out)) template)
    ∧ size_mb_of (2 * 1024 * 1024) = 2 := by
  subst hout
  refine ⟨?_, by decide⟩
  simp [record_trace, hex]

/-- Witness for the amended C3 at the Time Profiler / AllProcesses / 5s
scenario against a tool that writes a 2 MiB file at the synthesized path. -/
theorem record_saved_size_in_megabytes_witness :
    record_trace envC3 "Time Profiler" none none none true (some "5s") none false
      = .ok (.saved "time_profiler_20250101_120000.trace"
          (size_mb_of (envC3.getsize "time_profiler_20250101_120000.trace"))
          "Time Profiler")
    ∧ size_mb_of (2 * 1024 * 1024) = 2 :=
  record_saved_size_in_megabytes envC3 "Time Profiler" none none none true
    (some "5s") none false "time_profiler_20250101_120000.trace" (by decide)
    (by decide)

/-- C4: capture-target selection follows the priority
Attach > Launch > AllProcesses; with no target supplied the explicit
`--all-processes` flag is produced and no error occurs. -/
theorem target_selection_priority (a : String) (l : List String) (ap : Bool)
    (ha : a ≠ "") (hl : l ≠ []) :
    target_args (some a) (some l) ap = ["--attach", a]
    ∧ target_args none (some l) ap = ["--launch", "--"] ++ l
    ∧ target_args none none false = ["--all-processes"] := by
  refine ⟨?_, ?_, by decide⟩
  · simp [target_args, pyTruthyStr, ha]
  · simp [target_args, pyTruthyStr, pyTruthyList, hl]

/-- Witness for C4 at a concrete attach identifier and launch command. -/
theorem target_selection_priority_witness :
    target_args (some "MyApp") (some ["/bin/app"]) true = ["--attach", "MyApp"]
    ∧ target_args none (some ["/bin/app"]) true = ["--launch", "--"] ++ ["/bin/app"]
    ∧ target_args none none false = ["--all-processes"] :=
  target_selection_priority "MyApp" ["/bin/app"] true (by decide) (by decide)

/-- C5: when the export invocation exits zero but its standard output is not
well-formed XML, `export_toc` returns (does not raise) the degraded result
carrying the raw output text unchanged together with the parser's error
note. -/
theorem export_toc_malformed_xml (env : SysEnv) (input_path so se e : String)
    (hr : env.run ["xcrun", "xctrace", "export", "--input", input_path, "--toc"]
      = { returncode := 0, stdout := so, stderr := se })
    (hp : env.parseXml so = .error e) (he : e ≠ "") :
    export_toc env input_path = .ok (.unparsed so e) ∧ e ≠ "" := by
  refine ⟨?_, he⟩
  simp [export_toc, hr, hp]

/-- Export exits zero with output that is not XML. -/
def envC5 : SysEnv :=
  { run := fun _ => { returncode := 0, stdout := "<trace-toc", stderr := "" }
    parseXml := fun _ => .error "no element found: line 1, column 10"
    pathExists := fun _ => false
    getsize := fun _ => 0 }

/-- Witness for C5 at a concrete malformed export output. -/
theorem export_toc_malformed_xml_witness :
    export_toc envC5 "broken.trace"
      = .ok (.unparsed "<trace-toc" "no element found: line 1, column 10")
    ∧ "no element found: line 1, column 10" ≠ "" :=
  export_toc_malformed_xml envC5 "broken.trace" "<trace-toc" ""
    "no element found: line 1, column 10" rfl rfl (by decide)

/-- Export tool exits nonzero while the trace file itself exists. -/
def envC6 : SysEnv :=
  { run := fun _ => { returncode := 1, stdout := "", stderr := "export crashed" }
    parseXml := fun _ => .error "unused"
    pathExists := fun _ => true
    getsize := fun _ => 0 }

/-- C6 counterexample: an analysis invocation whose export tool exits
nonzero does not raise — `get_trace_info` returns a normal info result with
empty runs and schemas, and `analyze_trace` goes on to produce a report with
the zero-schema fallback insight. -/
theorem analysis_nonzero_exit_not_raised :
    get_trace_info envC6 "t.trace"
      = .ok { path := "t.trace", size_mb := 0, runs := [], schemas := [] }
    ∧ (analyze_trace envC6 "t.trace" false).map AnalysisReport.insights
      = .ok [fallbackInsight 0] := by
  refine ⟨by decide, by decide⟩

/-- C6 amended: a nonzero export exit makes `export_toc` and `export_xpath`
raise a RuntimeError carrying the tool's standard-error text, while the
analysis path (`get_trace_info`) absorbs the same failure and returns an
info result with empty runs and schemas. -/
theorem export_failure_raises_analysis_absorbs (env : SysEnv)
    (input_path xpath so se : String) (rc : Int) (output_path : Option String)
    (hr : env.run ["xcrun", "xctrace", "export", "--input", input_path, "--toc"]
      = { returncode := rc, stdout := so, stderr := se })
    (hx : env.run (if pyTruthyStr output_path then
        ["xcrun", "xctrace", "export", "--input", input_path, "--xpath", xpath,
          "--output", output_path.getD ""]
      else ["xcrun", "xctrace", "export", "--input", input_path, "--xpath", xpath])
      = { returncode := rc, stdout := so, stderr := se })
    (hrc : rc ≠ 0)
    (hex : env.pathExists input_path = true) :
    export_toc env input_path
      = .error (.runtimeError ("xctrace export failed: " ++ se))
    ∧ export_xpath env input_path xpath output_path
      = .error (.runtimeError ("xctrace export failed: " ++ se))
    ∧ get_trace_info env input_path
      = .ok { path := input_path, size_mb := size_mb_of (env.getsize input_path),
              runs := [], schemas := [] } := by
  refine ⟨?_, ?_, ?_⟩
  · simp [export_toc, hr, hrc]
  · simp [export_xpath, hx, hrc]
  · simp [get_trace_info, hex, hr, hrc]

/-- Same failing tool as `envC6`, used to instantiate the amended C6. -/
def envC6w : SysEnv :=
  { run := fun _ => { returncode := 1, stdout := "", stderr := "boom" }
    parseXml := fun _ => .error "unused"
    pathExists := fun _ => true
    getsize := fun _ => 0 }

/-- Witness for the amended C6 at a concrete failing export tool. -/
theorem export_failure_raises_analysis_absorbs_witness :
    export_toc envC6w "t.trace"
      = .error (.runtimeError ("xctrace export failed: " ++ "boom"))
    ∧ export_xpath envC6w "t.trace" "//run" none
      = .error (.runtimeError ("xctrace export failed: " ++ "boom"))
    ∧ get_trace_info envC6w "t.trace"
      = .ok { path := "t.trace", size_mb := size_mb_of (envC6w.getsize "t.trace"),
              runs := [], schemas := [] } :=
  export_failure_raises_analysis_absorbs envC6w "t.trace" "//run" "" "boom" 1 none
    rfl rfl (by decide) rfl

/-- TOC with two distinct schemas that match the same catalog pattern. -/
def xmlC7 : XmlElem :=
  .mk "trace-toc" []
    [.mk "run" [("number", "1")]
      [.mk "data" []
        [.mk "table" [("schema", "time-profile-18")] [],
         .mk "table" [("schema", "time-profile-19")] []]]]

def envC7 : SysEnv :=
  { run := fun _ => { returncode := 0, stdout := "<toc-dup>", stderr := "" }
    parseXml := fun _ => .ok xmlC7
    pathExists := fun _ => true
    getsize := fun _ => 1048576 }

/-- C7 counterexample: the schemas `time-profile-18` and `time-profile-19`
both match the `time-profile` pattern, and the identical insight text
appears twice in the report — there is no deduplication by insight text. -/
theorem duplicate_insight_text_not_deduplicated :
    (analyze_trace envC7 "dup.trace" false).map AnalysisReport.insights
      = .ok ["CPU profiling data available - look for hot functions",
             "CPU profiling data available - look for hot functions"]
    ∧ (["CPU profiling data available - look for hot functions",
        "CPU profiling data available - look for hot functions"] : List String).count
        "CPU profiling data available - look for hot functions" ≠ 1 := by
  refine ⟨by decide, by decide⟩

/-- The insight loop produces exactly one entry per matching schema, in
schema order, keeping duplicates: it is `List.filterMap insightFor`. -/
theorem insightsOf_eq_filterMap (schemas : List String) :
    insightsOf schemas = schemas.filterMap insightFor := by
  have aux : ∀ (ss : List String) (acc : List String),
      ss.foldl (fun acc schema =>
        match insightFor schema with
        | some insight => acc ++ [insight]
        | none => acc) acc = acc ++ ss.filterMap insightFor := by
    intro ss
    induction ss with
    | nil => intro acc; simp
    | cons s ss ih =>
      intro acc
      cases h : insightFor s with
      | none => simp [List.foldl_cons, h, ih, List.filterMap_cons]
      | some i => simp [List.foldl_cons, h, ih, List.filterMap_cons]
  simpa [insightsOf] using aux schemas []

/-- C7 amended: whenever at least one schema matches a catalog pattern, the
report's insight list is exactly one insight per matching schema (the first
matching pattern's text, in schema order) with duplicates retained — equal
insight texts contributed by several schemas appear once per schema, not
once overall. -/
theorem report_insights_once_per_matching_schema (env : SysEnv)
    (input_path : String) (verbose : Bool) (a : AnalysisReport)
    (h : analyze_trace env input_path verbose = .ok a)
    (hm : a.available_data.filterMap insightFor ≠ []) :
    a.insights = a.available_data.filterMap insightFor := by
  unfold analyze_trace at h
  cases hg : get_trace_info env input_path with
  | error e =>
    rw [hg] at h
    simp only [Except.map] at h
    exact Except.noConfusion h
  | ok info =>
    rw [hg] at h
    simp only [Except.map] at h
    injection h with h
    subst h
    simp only [insightsOf_eq_filterMap] at hm ⊢
    simp [List.isEmpty_iff, hm]

/-- The report produced by `analyze_trace` on `envC7`. -/
def reportC7 : AnalysisReport :=
  { file := "dup.trace"
    size_mb := 1
    runs := 1
    available_data := ["time-profile-18", "time-profile-19"]
    insights := ["CPU profiling data available - look for hot functions",
                 "CPU profiling data available - look for hot functions"]
    next_steps := ["Open in Instruments: open \x27dup.trace\x27",
                   "Export specific data: trace_export.py --xpath \x27<query>\x27"]
    all_schemas := none
    runs_detail := none }

/-- Witness for the amended C7 at the two-schema environment. -/
theorem report_insights_once_per_matching_schema_witness :
    reportC7.insights = reportC7.available_data.filterMap insightFor :=
  report_insights_once_per_matching_schema envC7 "dup.trace" false reportC7
    (by decide) (by decide)

/-- TOC whose SchemaSet is `{"time-profile-18", "os-signpost-3"}`. -/
def xmlC8 : XmlElem :=
  .mk "trace-toc" []
    [.mk "run" [("number", "1")]
      [.mk "data" []
        [.mk "table" [("schema", "time-profile-18")] [],
         .mk "table" [("schema", "os-signpost-3")] []]]]

def envC8 : SysEnv :=
  { run := fun _ => { returncode := 0, stdout := "<toc-two>", stderr := "" }
    parseXml := fun _ => .ok xmlC8
    pathExists := fun _ => true
    getsize := fun _ => 1048576 }

/-- C8 counterexample: for the SchemaSet
`{"time-profile-18", "os-signpost-3"}` the second insight is the
"Signpost intervals" catalog text — `"signpost"` precedes `"os-signpost"` in
the catalog and is a substring of `os-signpost-3`, so the claimed
"OS-level signposts" entry is never the first match. -/
theorem os_signpost_matches_signpost_entry :
    (analyze_trace envC8 "two.trace" false).map AnalysisReport.insights
      = .ok ["CPU profiling data available - look for hot functions",
             "Signpost intervals - custom performance markers"]
    ∧ (analyze_trace envC8 "two.trace" false).map AnalysisReport.insights
      ≠ .ok ["CPU profiling data available - look for hot functions",
             "OS-level signposts - system performance data"] := by
  refine ⟨by decide, by decide⟩

/-- TOC whose SchemaSet is `{"custom-xyz"}`, matching no catalog pattern. -/
def xmlC8b : XmlElem :=
  .mk "trace-toc" []
    [.mk "run" [("number", "1")]
      [.mk "data" []
        [.mk "table" [("schema", "custom-xyz")] []]]]

def envC8b : SysEnv :=
  { run := fun _ => { returncode := 0, stdout := "<toc-one>", stderr := "" }
    parseXml := fun _ => .ok xmlC8b
    pathExists := fun _ => true
    getsize := fun _ => 1048576 }

/-- C8 amended: the two-schema report contains exactly two insights in
schema order — the "CPU profiling" text and the "Signpost intervals" text
(not the "OS-level signposts" text) — and the `{"custom-xyz"}` report
contains exactly the single fallback insight mentioning a schema count
of 1. -/
theorem analyze_two_schema_report :
    (analyze_trace envC8 "two.trace" false).map AnalysisReport.insights
      = .ok ["CPU profiling data available - look for hot functions",
             "Signpost intervals - custom performance markers"]
    ∧ (analyze_trace envC8b "one.trace" false).map AnalysisReport.insights
      = .ok [fallbackInsight 1]
    ∧ fallbackInsight 1
      = "Trace contains 1 data tables. Open in Instruments.app for detailed analysis." := by
  refine ⟨by decide, by decide, by decide⟩

/-- C9: whenever the `pgrep -l` query exits zero and its stripped output has
a first line splitting into at least two whitespace-separated fields,
`find_process` returns exactly the dict `{"pid": ..., "name": ...}` built
from that first line — and those two are the only keys the result carries. -/
theorem find_process_first_line (env : SysEnv) (name so se first p n : String)
    (others : List String)
    (hr : env.run ["pgrep", "-l", name]
      = { returncode := 0, stdout := so, stderr := se })
    (hlines : pySplitOnChar newlineChar (pyStrip so) = first :: others)
    (hfirst : first ≠ "")
    (hparts : pySplitNoneMax1 first = [p, n]) :
    find_process env name = some [("pid", p), ("name", n)]
    ∧ ([("pid", p), ("name", n)].map Prod.fst) = ["pid", "name"] := by
  refine ⟨?_, by simp⟩
  simp [find_process, hr, hlines, hfirst, hparts]

/-- `pgrep -l` output with several matching lines. -/
def envC9 : SysEnv :=
  { run := fun _ =>
      { returncode := 0, stdout := "123 Safari\n456 SafariFetcherD\n", stderr := "" }
    parseXml := fun _ => .error "unused"
    pathExists := fun _ => false
    getsize := fun _ => 0 }

/-- Witness for C9 at a concrete two-match query output. -/
theorem find_process_first_line_witness :
    find_process envC9 "Safari" = some [("pid", "123"), ("name", "Safari")]
    ∧ ([("pid", "123"), ("name", "Safari")].map Prod.fst) = ["pid", "name"] :=
  find_process_first_line envC9 "Safari" "123 Safari\n456 SafariFetcherD\n" ""
    "123 Safari" "123" "Safari" ["456 SafariFetcherD"] rfl (by decide) (by decide)
    (by decide)

/-- Another multi-match query output, for the C9 counterexample. -/
def envC9b : SysEnv :=
  { run := fun _ =>
      { returncode := 0, stdout := "7 num\n8 numd\n", stderr := "" }
    parseXml := fun _ => .error "unused"
    pathExists := fun _ => false
    getsize := fun _ => 0 }

/-- C9 counterexample: with multiple matches the result is built from the
first line, but its key list is exactly `["pid", "name"]` — it carries no
field informing the caller that disambiguation was naive. -/
theorem find_process_result_has_only_pid_name :
    find_process envC9b "num" = some [("pid", "7"), ("name", "num")]
    ∧ ((find_process envC9b "num").getD []).map Prod.fst = ["pid", "name"] := by
  refine ⟨by decide, by decide⟩

/-- C10: every report `analyze_trace` returns has a nonempty insight list,
and whenever no schema matched any catalog pattern (including an empty
SchemaSet) the list is exactly the single fallback insight stating the raw
schema count. -/
theorem analyze_report_insights_nonempty (env : SysEnv) (input_path : String)
    (verbose : Bool) (a : AnalysisReport)
    (h : analyze_trace env input_path verbose = .ok a) :
    a.insights ≠ []
    ∧ (insightsOf a.available_data = [] →
        a.insights = [fallbackInsight a.available_data.length]) := by
  unfold analyze_trace at h
  cases hg : get_trace_info env input_path with
  | error e =>
    rw [hg] at h
    simp only [Except.map] at h
    exact Except.noConfusion h
  | ok info =>
    rw [hg] at h
    simp only [Except.map] at h
    injection h with h
    subst h
    by_cases hb : insightsOf info.schemas = []
    · simp [hb]
    · simp [List.isEmpty_iff, hb]

/-- TOC with no runs at all: the extracted SchemaSet is empty. -/
def xmlC10 : XmlElem := .mk "trace-toc" [] []

def envC10 : SysEnv :=
  { run := fun _ => { returncode := 0, stdout := "<toc-empty>", stderr := "" }
    parseXml := fun _ => .ok xmlC10
    pathExists := fun _ => true
    getsize := fun _ => 0 }

/-- The report produced by `analyze_trace` on `envC10`. -/
def reportC10 : AnalysisReport :=
  { file := "w.trace"
    size_mb := 0
    runs := 0
    available_data := []
    insights := [fallbackInsight 0]
    next_steps := ["Open in Instruments: open \x27w.trace\x27",
                   "Export specific data: trace_export.py --xpath \x27<query>\x27"]
    all_schemas := none
    runs_detail := none }

/-- Witness for C10 at a concrete empty-SchemaSet trace. -/
theorem analyze_report_insights_nonempty_witness :
    reportC10.insights ≠ []
    ∧ (insightsOf reportC10.available_data = [] →
        reportC10.insights = [fallbackInsight reportC10.available_data.length]) :=
  analyze_report_insights_nonempty envC10 "w.trace" false reportC10 (by decide)
